import Mathlib

/-!
Verification of core behaviours of a Socket.IO implementation in Go
(`socket.io-go`): the packet-type codec, the namespace connect pipeline
(middlewares, connection-state recovery), the server-connection packet
dispatchers (legacy and strict variants), the close/idempotence logic,
the manager close / reconnect-suppression logic, and manager defaults.

Shallow embedding conventions:
- Go `byte` / `uint64` values are `Nat` with explicit `% 2^w` where
  overflow can occur.
- Go `error` results are `Option String` (the message) or
  `Except String _`.
- Fallible external collaborators (JSON unmarshal, adapter session
  restore, socket construction, `onConnect`) are passed in as explicit
  inputs so that each code path of the embedded function mirrors a code
  path of the source.
-/

namespace SocketIOGo

/-! ## Packet types (src/parser/packet.go) -/

/-- Socket.IO packet types, in ordinal order, from `src/parser/packet.go`
(`PacketTypeConnect = iota`, ..., `PacketTypeBinaryAck`). -/
inductive SioPacketType where
  | connect
  | disconnect
  | event
  | ack
  | connectError
  | binaryEvent
  | binaryAck
  deriving DecidableEq, Repr

/-- Enum ordinal of a packet type (the Go `byte` value of the constant). -/
def SioPacketType.toNat : SioPacketType → Nat
  | .connect => 0
  | .disconnect => 1
  | .event => 2
  | .ack => 3
  | .connectError => 4
  | .binaryEvent => 5
  | .binaryAck => 6

/-- Inverse of `SioPacketType.toNat` on `0..6` (values `≥ 7` are never
produced by `FromChar`, which range-checks first). -/
def SioPacketType.fromOrdinal : Nat → SioPacketType
  | 0 => .connect
  | 1 => .disconnect
  | 2 => .event
  | 3 => .ack
  | 4 => .connectError
  | 5 => .binaryEvent
  | _ => .binaryAck

/-- Ordinal of `packetTypeMax = PacketTypeBinaryAck`. -/
def packetTypeMax : Nat := SioPacketType.binaryAck.toNat

/-- Embeds `PacketType.ToChar`: `b := byte(p); b += 48`. Byte addition is
modulo `2^8`; the operands here never exceed `54`, but the reduction is kept
to match the Go `byte` arithmetic. -/
def SioPacketType.ToChar (p : SioPacketType) : Nat :=
  (p.toNat + 48) % 256

/-- Embeds `PacketType.FromChar`: fails (`none`, standing for
`errInvalidPacketType`) when `b < 48 || b > byte(48+packetTypeMax)`,
otherwise decodes `b - 48`. -/
def SioPacketType.FromChar (b : Nat) : Option SioPacketType :=
  if b < 48 ∨ b > 48 + packetTypeMax then none
  else some (SioPacketType.fromOrdinal (b - 48))

/-! ## Per-namespace ack-id allocator (src/namespace.go, nextAckID) -/

/-- Embeds `Namespace.nextAckID`: returns the current `ackID` counter
(a Go `uint64`) and stores the incremented counter, which wraps
modulo `2^64`. Result: (returned id, new counter). -/
def nextAckID (ackID : Nat) : Nat × Nat :=
  (ackID, (ackID + 1) % 2 ^ 64)

/-- Counter value after `k` calls to `nextAckID`, starting from the zero
value of a fresh `Namespace`. -/
def ackIDAfter : Nat → Nat
  | 0 => 0
  | k + 1 => (nextAckID (ackIDAfter k)).2

/-- Value returned by call number `k` (0-based) of `nextAckID` on a fresh
`Namespace`: the call returns the counter as it stands. -/
def ackIDReturned (k : Nat) : Nat :=
  (nextAckID (ackIDAfter k)).1

theorem ackIDAfter_eq (k : Nat) : ackIDAfter k = k % 2 ^ 64 := by
  induction k with
  | zero => rfl
  | succ k ih =>
      simp only [ackIDAfter, nextAckID, ih]
      omega

theorem ackIDReturned_eq (k : Nat) : ackIDReturned k = k % 2 ^ 64 := by
  simp [ackIDReturned, nextAckID, ackIDAfter_eq]

/-- C3: for every packet type `p`, `FromChar (ToChar p)` succeeds and yields
`p` again, and `FromChar b` fails with the invalid-packet-type error exactly
when the byte `b` is outside the ASCII range 48 (`0`) to 48 + the ordinal of
`BinaryAck` (= 54). -/
theorem packet_type_char_round_trip :
    (∀ p : SioPacketType, SioPacketType.FromChar p.ToChar = some p) ∧
    (∀ b : Nat, b < 256 →
      ((SioPacketType.FromChar b).isNone ↔ (b < 48 ∨ b > 48 + packetTypeMax))) := by
  constructor
  · intro p
    cases p <;> rfl
  · set_option maxRecDepth 2048 in decide

/-- Witness for `packet_type_char_round_trip` at packet type `event` and at
the out-of-range byte 55. -/
theorem packet_type_char_round_trip_witness :
    SioPacketType.FromChar SioPacketType.event.ToChar = some SioPacketType.event ∧
    ((SioPacketType.FromChar 55).isNone ↔ (55 < 48 ∨ 55 > 48 + packetTypeMax)) :=
  ⟨packet_type_char_round_trip.1 .event,
   packet_type_char_round_trip.2 55 (by decide)⟩

/-- C8 counterexample: the ack-id counter is a Go `uint64` and wraps, so the
sequence of returned ids is not injective for arbitrarily many calls: call
number `2^64` (0-based) returns the same id as call number 0, not `2^64` as
the claim requires. -/
theorem ack_id_wraps_counterexample :
    ackIDReturned (2 ^ 64) = ackIDReturned 0 ∧ ackIDReturned (2 ^ 64) ≠ 2 ^ 64 := by
  refine ⟨?_, ?_⟩ <;> simp [ackIDReturned_eq]

/-- C8 (amended): each call to `nextAckID` returns the current counter and
increments it modulo `2^64`; call number `k` returns `k % 2^64`, so any
sequence of `n ≤ 2^64` calls returns exactly `0, 1, ..., n-1` with no value
returned twice. -/
theorem ack_id_strictly_monotonic_below_wrap :
    (∀ k : Nat, ackIDReturned k = k % 2 ^ 64) ∧
    (∀ k : Nat, k < 2 ^ 64 → ackIDReturned k = k) ∧
    (∀ i j : Nat, i < 2 ^ 64 → j < 2 ^ 64 → ackIDReturned i = ackIDReturned j → i = j) := by
  refine ⟨ackIDReturned_eq, fun k hk => ?_, fun i j hi hj hij => ?_⟩
  · rw [ackIDReturned_eq, Nat.mod_eq_of_lt hk]
  · rwa [ackIDReturned_eq, ackIDReturned_eq, Nat.mod_eq_of_lt hi, Nat.mod_eq_of_lt hj] at hij

/-- Witness for `ack_id_strictly_monotonic_below_wrap` at calls 5, 2 and 3. -/
theorem ack_id_strictly_monotonic_below_wrap_witness :
    ackIDReturned 5 = 5 ∧ (ackIDReturned 2 = ackIDReturned 3 → 2 = 3) :=
  ⟨ack_id_strictly_monotonic_below_wrap.2.1 5 (by norm_num),
   ack_id_strictly_monotonic_below_wrap.2.2 2 3 (by norm_num) (by norm_num)⟩

/-! ## Server-connection packet dispatch (strict: src/unnamed/part_000;
legacy: src/server_conn.go) -/

/-- Record of one server socket as the connection-level stores see it:
its id and the name of the namespace it is attached to. -/
structure SockRec where
  sid : Nat
  nsp : String
  deriving DecidableEq, Repr

/-- Namespace normalization done at the top of both variants of
`serverConn.onFinishEIOPacket`: an empty namespace becomes `/`. -/
def normalizeNamespace (s : String) : String :=
  if s = "" then "/" else s

/-- Header fields of a decoded Socket.IO packet that the connection-level
dispatch inspects (`parser.PacketHeader.Type` and `.Namespace`). -/
structure SPacketHeader where
  ptype : SioPacketType
  nsp : String
  deriving DecidableEq, Repr

/-- Modelled from the spec: the strict variant's `serverSocketStore.GetByNsp`
(the store source is not under src/) — the connection maintains a
`namespace → socket` index (spec 4.7); `GetByNsp` looks up the socket
attached for a namespace. Embedded as a search in the connection's socket
list. -/
def getByNsp (socks : List SockRec) (ns : String) : Option SockRec :=
  socks.find? (fun s => s.nsp == ns)

/-- Outcome of the strict dispatcher: enter `serverConn.connect` (the path
that invokes `Namespace.add`), deliver to an attached socket's `onPacket`,
or close the connection. -/
inductive StrictDispatch where
  | connectPath
  | onPacket (sid : Nat)
  | closeConn
  deriving DecidableEq, Repr

/-- Embeds the strict `serverConn.onFinishEIOPacket`
(src/unnamed/part_000 lines 81-97). The source's if-chain
(`Connect && !ok` / `ok && != Connect && != ConnectError` / `else`)
is written as a match on the store lookup; the two forms coincide branch
for branch. -/
def onFinishEIOPacketStrict (socks : List SockRec) (h : SPacketHeader) : StrictDispatch :=
  let ns := normalizeNamespace h.nsp
  match getByNsp socks ns with
  | none => if h.ptype = .connect then .connectPath else .closeConn
  | some s =>
      if h.ptype ≠ .connect ∧ h.ptype ≠ .connectError then .onPacket s.sid
      else .closeConn

/-- Outcome of the legacy dispatcher: enter `serverConn.connect`, or deliver
the packet to every stored socket whose namespace matches. -/
inductive LegacyDispatch where
  | connectPath
  | deliver (sids : List Nat)
  deriving DecidableEq, Repr

/-- Embeds the legacy `serverConn.onFinishEIOPacket`
(src/server_conn.go lines 123-140): a Connect packet goes to `connect`;
any other packet is delivered via `onPacket` to each socket in the
sid-keyed store whose namespace equals the packet's. -/
def onFinishEIOPacketLegacy (socks : List SockRec) (h : SPacketHeader) : LegacyDispatch :=
  let ns := normalizeNamespace h.nsp
  if h.ptype = .connect then .connectPath
  else .deliver ((socks.filter (fun s => s.nsp == ns)).map (fun s => s.sid))

/-- C1: dispatch of every completed inbound packet on a strict-variant server
connection: a Connect packet for a namespace with no attached socket enters
the connect path (`serverConn.connect`, which invokes `Namespace.add`); any
packet whose type is neither Connect nor ConnectError for an attached
namespace is delivered to that socket's `onPacket`; any non-Connect packet
for a not-attached namespace, and a Connect packet for an already-attached
namespace, close the connection. -/
theorem strict_dispatch_cases (socks : List SockRec) (h : SPacketHeader) :
    (h.ptype = .connect → getByNsp socks (normalizeNamespace h.nsp) = none →
      onFinishEIOPacketStrict socks h = .connectPath) ∧
    (∀ s : SockRec, getByNsp socks (normalizeNamespace h.nsp) = some s →
      h.ptype ≠ .connect → h.ptype ≠ .connectError →
      onFinishEIOPacketStrict socks h = .onPacket s.sid) ∧
    (getByNsp socks (normalizeNamespace h.nsp) = none → h.ptype ≠ .connect →
      onFinishEIOPacketStrict socks h = .closeConn) ∧
    (∀ s : SockRec, getByNsp socks (normalizeNamespace h.nsp) = some s →
      h.ptype = .connect →
      onFinishEIOPacketStrict socks h = .closeConn) := by
  refine ⟨?_, ?_, ?_, ?_⟩
  · intro ht hg
    simp [onFinishEIOPacketStrict, hg, ht]
  · intro s hg h1 h2
    simp [onFinishEIOPacketStrict, hg, h1, h2]
  · intro hg ht
    simp [onFinishEIOPacketStrict, hg, ht]
  · intro s hg ht
    simp [onFinishEIOPacketStrict, hg, ht]

/-- Witness for `strict_dispatch_cases`: with socket 7 attached to `/chat`,
an Event packet for `/chat` is delivered to socket 7; on an empty connection
a Connect for the default namespace enters the connect path; a second
Connect for `/chat` closes the connection. -/
theorem strict_dispatch_cases_witness :
    onFinishEIOPacketStrict [⟨7, "/chat"⟩] ⟨.event, "/chat"⟩ = .onPacket 7 ∧
    onFinishEIOPacketStrict [] ⟨.connect, ""⟩ = .connectPath ∧
    onFinishEIOPacketStrict [⟨7, "/chat"⟩] ⟨.connect, "/chat"⟩ = .closeConn :=
  ⟨(strict_dispatch_cases [⟨7, "/chat"⟩] ⟨.event, "/chat"⟩).2.1 ⟨7, "/chat"⟩
      (by simp [getByNsp, normalizeNamespace]) (by simp) (by simp),
   (strict_dispatch_cases [] ⟨.connect, ""⟩).1 rfl rfl,
   (strict_dispatch_cases [⟨7, "/chat"⟩] ⟨.connect, "/chat"⟩).2.2.2 ⟨7, "/chat"⟩
      (by simp [getByNsp, normalizeNamespace]) rfl⟩

theorem find?_of_filter_singleton {α : Type} {p : α → Bool} {l : List α} {a : α}
    (hf : l.filter p = [a]) : l.find? p = some a := by
  induction l with
  | nil => simp at hf
  | cons x xs ih =>
      by_cases hx : p x
      · rw [List.filter_cons_of_pos hx] at hf
        obtain ⟨rfl, -⟩ := List.cons_eq_cons.mp hf
        simp [List.find?, hx]
      · rw [List.filter_cons_of_neg hx] at hf
        simpa [List.find?, hx] using ih hf

/-- C9: the legacy and strict server-connection packet dispatchers agree on
the common case: for a packet whose type is neither Connect nor ConnectError
and whose (normalized) namespace has exactly one attached socket, the legacy
variant delivers the packet to exactly that socket and the strict variant
dispatches to the same socket's `onPacket`. -/
theorem legacy_strict_dispatch_agree (socks : List SockRec) (h : SPacketHeader) (s : SockRec)
    (h1 : h.ptype ≠ .connect) (h2 : h.ptype ≠ .connectError)
    (hone : socks.filter (fun x => x.nsp == normalizeNamespace h.nsp) = [s]) :
    onFinishEIOPacketLegacy socks h = .deliver [s.sid] ∧
    onFinishEIOPacketStrict socks h = .onPacket s.sid := by
  constructor
  · simp only [onFinishEIOPacketLegacy, if_neg h1, hone, List.map_cons, List.map_nil]
  · have hfind : getByNsp socks (normalizeNamespace h.nsp) = some s :=
      find?_of_filter_singleton hone
    simp [onFinishEIOPacketStrict, hfind, h1, h2]

/-- Witness for `legacy_strict_dispatch_agree`: an Ack packet for `/news`
with socket 3 the unique socket attached to `/news`. -/
theorem legacy_strict_dispatch_agree_witness :
    onFinishEIOPacketLegacy [⟨2, "/"⟩, ⟨3, "/news"⟩] ⟨.ack, "/news"⟩ = .deliver [3] ∧
    onFinishEIOPacketStrict [⟨2, "/"⟩, ⟨3, "/news"⟩] ⟨.ack, "/news"⟩ = .onPacket 3 :=
  legacy_strict_dispatch_agree [⟨2, "/"⟩, ⟨3, "/news"⟩] ⟨.ack, "/news"⟩ ⟨3, "/news"⟩
    (by simp) (by simp) (by simp [normalizeNamespace])

/-! ## Namespace connect pipeline (src/namespace.go: add, runMiddlewares,
doConnect) -/

/-- Server option `ConnectionStateRecovery {Enabled, UseMiddlewares}` as read
by `Namespace.add` (config surface, spec 6.3; the Server struct source is not
under src/, its fields are used in src/namespace.go and src/unnamed/part_000). -/
structure ConnectionStateRecoveryCfg where
  enabled : Bool
  useMiddlewares : Bool
  deriving DecidableEq, Repr

/-- Server fields consumed by the embedded code paths:
`server.connectionStateRecovery`, `server.acceptAnyNamespace` and
`server.connectTimeout`. -/
structure ServerCfg where
  connectionStateRecovery : ConnectionStateRecoveryCfg
  acceptAnyNamespace : Bool
  connectTimeout : Nat
  deriving DecidableEq, Repr

/-- The `authRecoveryFields` struct that `Namespace.add` unmarshals from the
auth payload. -/
structure AuthRecoveryFields where
  sessionID : String
  offset : String
  deriving DecidableEq, Repr

/-- Session returned by `adapter.RestoreSession`; the connect pipeline only
passes it to `newServerSocket`, which inherits its socket id. -/
structure SessionToRestore where
  sid : Nat
  deriving DecidableEq, Repr

/-- Modelled from the spec: `newServerSocket` (not under src/) constructs the
per-namespace server socket; built from a restored session it inherits the
session's identity and is marked `Recovered` (spec 4.6 step 2). Only the
fields the connect pipeline inspects are kept: id and the recovered mark. -/
structure ServerSocketM where
  sid : Nat
  recovered : Bool
  deriving DecidableEq, Repr

/-- The `Handshake` constructed at the top of `Namespace.add`:
wall-clock time of connect and the auth blob. -/
structure HandshakeM where
  time : Nat
  auth : String
  deriving DecidableEq, Repr

/-- A namespace middleware: receives the socket and the handshake, returns a
Go error, embedded as `Option String` (the error message; `none` = nil). -/
abbrev NspMiddlewareFuncM := ServerSocketM → HandshakeM → Option String

/-- External collaborators of `Namespace.add`, passed in explicitly:
the wall clock, the result of `json.Unmarshal(auth, &authRecoveryFields)`,
the adapter's `RestoreSession`, the id `newServerSocket` assigns to a fresh
socket, a possible `newServerSocket` error and the outcome of
`socket.onConnect()` inside `doConnect`. -/
structure AddEnv where
  now : Nat
  unmarshal : Except String AuthRecoveryFields
  restoreSession : String → String → Option SessionToRestore
  freshSid : Nat
  socketCtorErr : Option String
  onConnectErr : Option String

/-- Embeds `Namespace.runMiddlewares` (src/namespace.go lines 254-265),
instrumented with the 0-based indices of the middlewares that were executed:
middlewares run in list (= registration) order and the first error stops the
chain. Returns (executed indices in execution order, first error). -/
def runMiddlewaresFrom (socket : ServerSocketM) (hs : HandshakeM) :
    List NspMiddlewareFuncM → Nat → List Nat × Option String
  | [], _ => ([], none)
  | f :: rest, i =>
      match f socket hs with
      | some e => ([i], some e)
      | none =>
          let r := runMiddlewaresFrom socket hs rest (i + 1)
          (i :: r.1, r.2)

/-- The middleware chain as run by `Namespace.add`, starting at index 0. -/
def runMiddlewares (mws : List NspMiddlewareFuncM) (socket : ServerSocketM)
    (hs : HandshakeM) : List Nat × Option String :=
  runMiddlewaresFrom socket hs mws 0

/-- Modelled from the spec: the per-namespace socket set
(`NamespaceSocketStore`, not under src/), keyed by socket id (spec 4.6 step 4
registers the socket in the namespace set). `storeSet` is the store's `Set`. -/
def storeSet (store : List ServerSocketM) (socket : ServerSocketM) : List ServerSocketM :=
  socket :: store.filter (fun x => x.sid != socket.sid)

/-- The session restore attempt at the top of `Namespace.add`
(src/namespace.go lines 223-231): only when connection-state recovery is
enabled is `adapter.RestoreSession` consulted. -/
def restoredSession (srv : ServerCfg) (env : AddEnv) (fields : AuthRecoveryFields) :
    Option SessionToRestore :=
  if srv.connectionStateRecovery.enabled then
    env.restoreSession fields.sessionID fields.offset
  else none

/-- The socket `Namespace.add` constructs: from the restored session when one
was found, otherwise a fresh non-recovered socket
(src/namespace.go lines 223-240). -/
def addSocket (srv : ServerCfg) (env : AddEnv) (fields : AuthRecoveryFields) : ServerSocketM :=
  match restoredSession srv env fields with
  | some session => { sid := session.sid, recovered := true }
  | none => { sid := env.freshSid, recovered := false }

/-- The middleware-skip condition of `Namespace.add`
(src/namespace.go line 242): recovery enabled, `UseMiddlewares` unset, and
the socket was recovered. -/
def skipMiddlewares (srv : ServerCfg) (socket : ServerSocketM) : Bool :=
  srv.connectionStateRecovery.enabled && !srv.connectionStateRecovery.useMiddlewares
    && socket.recovered

/-- Embeds `Namespace.doConnect` (src/namespace.go lines 267-287): the socket
is inserted into the namespace socket set, then `socket.onConnect()` runs and
its error, if any, is propagated (the asynchronous dispatch of user "connect"
handlers has no effect on this state). Returns (result, new socket set). -/
def doConnect (store : List ServerSocketM) (onConnectErr : Option String)
    (socket : ServerSocketM) : Except String ServerSocketM × List ServerSocketM :=
  let store' := storeSet store socket
  match onConnectErr with
  | some e => (.error e, store')
  | none => (.ok socket, store')

/-- Result of `Namespace.add`: the returned socket or error, the namespace
socket set afterwards, and the instrumentation trace of executed middleware
indices. -/
structure AddResult where
  result : Except String ServerSocketM
  store : List ServerSocketM
  executed : List Nat
  deriving Repr

/-- Embeds `Namespace.add` (src/namespace.go lines 208-252): build the
handshake, unmarshal the recovery fields from auth (error propagated),
attempt session restore when recovery is enabled, construct the socket
(constructor error propagated), then either connect directly (recovery
accepted and `UseMiddlewares` unset) or run the middleware chain and connect
only if no middleware errored. -/
def NamespaceAdd (srv : ServerCfg) (mws : List NspMiddlewareFuncM)
    (store : List ServerSocketM) (env : AddEnv) (auth : String) : AddResult :=
  let handshake : HandshakeM := { time := env.now, auth := auth }
  match env.unmarshal with
  | .error e => { result := .error e, store := store, executed := [] }
  | .ok fields =>
      match env.socketCtorErr with
      | some e => { result := .error e, store := store, executed := [] }
      | none =>
          let socket := addSocket srv env fields
          if skipMiddlewares srv socket then
            let r := doConnect store env.onConnectErr socket
            { result := r.1, store := r.2, executed := [] }
          else
            let run := runMiddlewares mws socket handshake
            match run.2 with
            | some e => { result := .error e, store := store, executed := run.1 }
            | none =>
                let r := doConnect store env.onConnectErr socket
                { result := r.1, store := r.2, executed := run.1 }

/-- The `connectError` payload/header built by `serverConn.connectError`
(src/unnamed/part_000 lines 140-157): a ConnectError-typed packet for the
namespace, whose payload message is `err.Error()`. -/
structure ConnectErrorPacketM where
  ptype : SioPacketType
  nsp : String
  message : String
  deriving DecidableEq, Repr

/-- Embeds `serverConn.connectError`: the packet the server sends to the
client when a namespace connect fails (the encode step cannot fail on a plain
string message). -/
def serverConnConnectError (errMsg nspName : String) : ConnectErrorPacketM :=
  { ptype := .connectError, nsp := nspName, message := errMsg }

/-- Outcome of the tail of the strict `serverConn.connect`
(src/unnamed/part_000 lines 130-137): on `Namespace.add` error a ConnectError
packet carrying the error message is sent; on success the socket is stored
and the namespace marked attached. -/
inductive ConnectOutcome where
  | sendConnectError (packet : ConnectErrorPacketM)
  | attached (socket : ServerSocketM)
  deriving DecidableEq, Repr

/-- Embeds the part of the strict `serverConn.connect` that consumes the
result of `Namespace.add`. -/
def serverConnConnectFromAdd (nspName : String) (r : AddResult) : ConnectOutcome :=
  match r.result with
  | .error e => .sendConnectError (serverConnConnectError e nspName)
  | .ok socket => .attached socket

/-- C2: when a middleware errors during `Namespace.add` (the middleware chain
actually runs and its first error is `e`), `add` returns that error and the
namespace socket set is unchanged — the socket is only inserted inside
`doConnect`, which is reached only after every middleware succeeded — and the
server connection answers with a ConnectError packet whose message is the
error's message. -/
theorem middleware_error_aborts_add (srv : ServerCfg) (mws : List NspMiddlewareFuncM)
    (store : List ServerSocketM) (env : AddEnv) (auth : String)
    (fields : AuthRecoveryFields) (e : String) (nspName : String)
    (hum : env.unmarshal = .ok fields)
    (hctor : env.socketCtorErr = none)
    (hskip : skipMiddlewares srv (addSocket srv env fields) = false)
    (hmw : (runMiddlewares mws (addSocket srv env fields)
      { time := env.now, auth := auth }).2 = some e) :
    (NamespaceAdd srv mws store env auth).result = .error e ∧
    (NamespaceAdd srv mws store env auth).store = store ∧
    serverConnConnectFromAdd nspName (NamespaceAdd srv mws store env auth) =
      .sendConnectError { ptype := .connectError, nsp := nspName, message := e } := by
  have hadd : NamespaceAdd srv mws store env auth =
      { result := .error e, store := store,
        executed := (runMiddlewares mws (addSocket srv env fields)
          { time := env.now, auth := auth }).1 } := by
    rw [NamespaceAdd, hum, hctor]
    simp only [hskip, Bool.false_eq_true, if_false, hmw]
  refine ⟨by rw [hadd], by rw [hadd], ?_⟩
  rw [hadd]
  rfl

/-- Witness for `middleware_error_aborts_add`: one middleware that rejects
with "not authorized", recovery disabled, on a namespace whose socket set
holds socket 4. -/
theorem middleware_error_aborts_add_witness :
    (NamespaceAdd ⟨⟨false, false⟩, false, 45000⟩ [fun _ _ => some "not authorized"]
        [⟨4, false⟩] ⟨0, (.ok ⟨"", ""⟩), (fun _ _ => none), 9, none, none⟩ "{}").result
      = .error "not authorized" ∧
    (NamespaceAdd ⟨⟨false, false⟩, false, 45000⟩ [fun _ _ => some "not authorized"]
        [⟨4, false⟩] ⟨0, (.ok ⟨"", ""⟩), (fun _ _ => none), 9, none, none⟩ "{}").store
      = [⟨4, false⟩] ∧
    serverConnConnectFromAdd "/chat"
        (NamespaceAdd ⟨⟨false, false⟩, false, 45000⟩ [fun _ _ => some "not authorized"]
          [⟨4, false⟩] ⟨0, (.ok ⟨"", ""⟩), (fun _ _ => none), 9, none, none⟩ "{}")
      = .sendConnectError ⟨.connectError, "/chat", "not authorized"⟩ :=
  middleware_error_aborts_add _ _ _ _ _ ⟨"", ""⟩ "not authorized" "/chat"
    rfl rfl rfl rfl

theorem runMiddlewaresFrom_all_ok (socket : ServerSocketM) (hs : HandshakeM)
    (mws : List NspMiddlewareFuncM) (i : Nat)
    (h : ∀ f ∈ mws, f socket hs = none) :
    runMiddlewaresFrom socket hs mws i = (List.range' i mws.length, none) := by
  induction mws generalizing i with
  | nil => simp [runMiddlewaresFrom, List.range']
  | cons f rest ih =>
      have hf : f socket hs = none := h f (by simp)
      have hrest : ∀ g ∈ rest, g socket hs = none := fun g hg => h g (by simp [hg])
      simp [runMiddlewaresFrom, hf, ih (i + 1) hrest, List.range']

/-- C4: `Namespace.add` skips the middleware chain exactly when
connection-state recovery is enabled, `UseMiddlewares` is unset and the
socket was recovered from a restored session; in that single case no
middleware executes and the socket is nonetheless connected (inserted into
the namespace set, `add` succeeding when `onConnect` does); in every other
case the chain runs, and when no middleware errors it executes every
middleware, in registration order `0, 1, ..., n-1`. -/
theorem add_runs_middlewares_unless_recovered (srv : ServerCfg)
    (mws : List NspMiddlewareFuncM) (store : List ServerSocketM) (env : AddEnv)
    (auth : String) (fields : AuthRecoveryFields)
    (hum : env.unmarshal = .ok fields)
    (hctor : env.socketCtorErr = none) :
    (skipMiddlewares srv (addSocket srv env fields) =
      (srv.connectionStateRecovery.enabled &&
        !srv.connectionStateRecovery.useMiddlewares &&
        (restoredSession srv env fields).isSome)) ∧
    (skipMiddlewares srv (addSocket srv env fields) = true →
      (NamespaceAdd srv mws store env auth).executed = [] ∧
      (NamespaceAdd srv mws store env auth).store =
        storeSet store (addSocket srv env fields) ∧
      (env.onConnectErr = none →
        (NamespaceAdd srv mws store env auth).result = .ok (addSocket srv env fields))) ∧
    (skipMiddlewares srv (addSocket srv env fields) = false →
      (NamespaceAdd srv mws store env auth).executed =
        (runMiddlewares mws (addSocket srv env fields) ⟨env.now, auth⟩).1) ∧
    ((∀ f ∈ mws, f (addSocket srv env fields) ⟨env.now, auth⟩ = none) →
      (runMiddlewares mws (addSocket srv env fields) ⟨env.now, auth⟩).1 =
        List.range mws.length) := by
  refine ⟨?_, ?_, ?_, ?_⟩
  · unfold skipMiddlewares addSocket
    cases hres : restoredSession srv env fields <;> simp
  · intro hskip
    have hadd : NamespaceAdd srv mws store env auth =
        { result := (doConnect store env.onConnectErr (addSocket srv env fields)).1,
          store := (doConnect store env.onConnectErr (addSocket srv env fields)).2,
          executed := [] } := by
      rw [NamespaceAdd, hum, hctor]
      simp only [hskip, if_true]
    refine ⟨by rw [hadd], ?_, ?_⟩
    · rw [hadd]
      cases env.onConnectErr <;> rfl
    · intro hoc
      rw [hadd]
      simp [doConnect, hoc]
  · intro hskip
    rw [NamespaceAdd, hum, hctor]
    simp only [hskip, Bool.false_eq_true, if_false]
    cases hrun : (runMiddlewares mws (addSocket srv env fields) ⟨env.now, auth⟩).2 <;>
      simp [hrun]
  · intro hall
    rw [runMiddlewares, runMiddlewaresFrom_all_ok _ _ _ _ hall, List.range_eq_range']

/-- Witness for `add_runs_middlewares_unless_recovered`: with recovery
enabled, `UseMiddlewares` unset and a session restored, no middleware index
is executed; with recovery enabled but `UseMiddlewares` set, the single
always-accepting middleware executes as index 0. -/
theorem add_runs_middlewares_unless_recovered_witness :
    (NamespaceAdd ⟨⟨true, false⟩, false, 0⟩ [(fun _ _ => none)]
        [] ⟨0, (.ok ⟨"s1", "0"⟩), (fun _ _ => some ⟨11⟩), 9, none, none⟩ "{}").executed
      = [] ∧
    (runMiddlewares [(fun _ _ => none)]
        (addSocket ⟨⟨true, true⟩, false, 0⟩
          ⟨0, (.ok ⟨"", ""⟩), (fun _ _ => none), 9, none, none⟩ ⟨"", ""⟩)
        ⟨0, "{}"⟩).1 = List.range 1 :=
  ⟨((add_runs_middlewares_unless_recovered ⟨⟨true, false⟩, false, 0⟩ [(fun _ _ => none)]
      [] ⟨0, (.ok ⟨"s1", "0"⟩), (fun _ _ => some ⟨11⟩), 9, none, none⟩ "{}" ⟨"s1", "0"⟩
      rfl rfl).2.1 rfl).1,
   (add_runs_middlewares_unless_recovered ⟨⟨true, true⟩, false, 0⟩ [(fun _ _ => none)]
      [] ⟨0, (.ok ⟨"", ""⟩), (fun _ _ => none), 9, none, none⟩ "{}" ⟨"", ""⟩
      rfl rfl).2.2.2 (fun f hf => by rcases List.mem_singleton.mp hf with rfl; rfl)⟩

/-! ## Connect-timeout grace timer (src/unnamed/part_000, newServerConn) -/

/-- A one-shot timer: how long it sleeps and, given the number of attached
namespaces observed when it fires, whether it closes the connection. -/
structure OneShotTimer where
  duration : Nat
  closesConn : Nat → Bool

/-- Embeds the goroutine started by the strict `newServerConn`
(src/unnamed/part_000 lines 56-61): it sleeps `server.connectTimeout` once,
then calls `c.Close()` iff `c.nsps.Len() == 0`; the goroutine body is
straight-line, so the timer fires exactly once. -/
def newServerConnGraceTimer (srv : ServerCfg) : OneShotTimer :=
  { duration := srv.connectTimeout, closesConn := fun nspsLen => nspsLen == 0 }

/-- C5: the grace timer started at strict server-connection creation sleeps
exactly the server's connect-timeout and fires once; at that moment it closes
the connection iff the namespace store is still empty — with at least one
namespace attached it closes nothing. -/
theorem grace_timer_closes_iff_no_namespace (srv : ServerCfg) (nspsLen : Nat) :
    (newServerConnGraceTimer srv).duration = srv.connectTimeout ∧
    ((newServerConnGraceTimer srv).closesConn nspsLen = true ↔ nspsLen = 0) := by
  refine ⟨rfl, ?_⟩
  simp [newServerConnGraceTimer]

/-! ## Strict server-connection close (src/unnamed/part_000: onClose, Close) -/

/-- The state `serverConn.onClose` acts on: the connection's socket store,
the record of close notifications delivered to sockets, how many times the
parser has been reset, and the `sync.Once` guard. (`eio.Close` and the
packet-queue reset performed by `serverConn.Close` act on the transport and
the queue, outside this state.) -/
structure ServerConnCloseState where
  sockets : List Nat
  notified : List (Nat × String)
  parserResets : Nat
  closeOnceDone : Bool
  deriving DecidableEq, Repr

/-- Embeds the strict `serverConn.onClose` (src/unnamed/part_000
lines 197-211): under a `sync.Once` guard, remove all sockets from the store,
notify each of the close reason (`socket.onClose(reason)`), and reset the
parser; once the guard has fired, every further invocation does nothing. -/
def serverConnOnClose (reason : String) (s : ServerConnCloseState) : ServerConnCloseState :=
  if s.closeOnceDone then s
  else
    { sockets := [],
      notified := s.notified ++ s.sockets.map (fun sid => (sid, reason)),
      parserResets := s.parserResets + 1,
      closeOnceDone := true }

/-- Embeds the effect of the strict `serverConn.Close` (src/unnamed/part_000
lines 224-228) on the close state: after `eio.Close()` and the queue reset it
invokes `onClose("forced server close", nil)`. -/
def serverConnClose (s : ServerConnCloseState) : ServerConnCloseState :=
  serverConnOnClose "forced server close" s

theorem serverConnOnClose_done (reason : String) (s : ServerConnCloseState)
    (h : s.closeOnceDone = true) : serverConnOnClose reason s = s := by
  simp [serverConnOnClose, h]

/-- C7: the strict `serverConn.onClose` is idempotent. On a connection whose
single-fire guard has not yet fired, the first invocation (directly with any
reason, or with "forced server close" via `serverConn.Close`) removes all
sockets, notifies each of them of that close reason, and resets the parser
exactly once; every sequence of later invocations, through either entry
point, leaves the connection state unchanged. -/
theorem server_conn_on_close_idempotent (s : ServerConnCloseState) (reason : String)
    (h : s.closeOnceDone = false) :
    ((serverConnOnClose reason s).sockets = [] ∧
      (serverConnOnClose reason s).notified =
        s.notified ++ s.sockets.map (fun sid => (sid, reason)) ∧
      (serverConnOnClose reason s).parserResets = s.parserResets + 1 ∧
      (serverConnOnClose reason s).closeOnceDone = true) ∧
    (∀ calls : List String,
      calls.foldl (fun st r => serverConnOnClose r st) (serverConnOnClose reason s) =
        serverConnOnClose reason s) ∧
    serverConnClose (serverConnOnClose reason s) = serverConnOnClose reason s := by
  have hdone : (serverConnOnClose reason s).closeOnceDone = true := by
    simp [serverConnOnClose, h]
  have hstable : ∀ (calls : List String) (t : ServerConnCloseState),
      t.closeOnceDone = true → calls.foldl (fun st r => serverConnOnClose r st) t = t := by
    intro calls
    induction calls with
    | nil => intro t _; rfl
    | cons r rest ih =>
        intro t ht
        rw [List.foldl_cons, serverConnOnClose_done r t ht]
        exact ih t ht
  refine ⟨?_, fun calls => hstable calls _ hdone, ?_⟩
  · simp [serverConnOnClose, h]
  · exact serverConnOnClose_done _ _ hdone

/-- Witness for `server_conn_on_close_idempotent`: sockets 1 and 2, closed
with reason "transport close", then hit again via both entry points. -/
theorem server_conn_on_close_idempotent_witness :
    ((serverConnOnClose "transport close" ⟨[1, 2], [], 0, false⟩).sockets = [] ∧
      (serverConnOnClose "transport close" ⟨[1, 2], [], 0, false⟩).notified =
        [] ++ [1, 2].map (fun sid => (sid, "transport close")) ∧
      (serverConnOnClose "transport close" ⟨[1, 2], [], 0, false⟩).parserResets = 0 + 1 ∧
      (serverConnOnClose "transport close" ⟨[1, 2], [], 0, false⟩).closeOnceDone = true) ∧
    (∀ calls : List String,
      calls.foldl (fun st r => serverConnOnClose r st)
          (serverConnOnClose "transport close" ⟨[1, 2], [], 0, false⟩) =
        serverConnOnClose "transport close" ⟨[1, 2], [], 0, false⟩) ∧
    serverConnClose (serverConnOnClose "transport close" ⟨[1, 2], [], 0, false⟩) =
      serverConnOnClose "transport close" ⟨[1, 2], [], 0, false⟩ :=
  server_conn_on_close_idempotent ⟨[1, 2], [], 0, false⟩ "transport close" rfl

/-! ## Manager close and reconnect suppression (src/client_manager.go) -/

/-- The manager state relevant to close/reconnect: the skip-reconnect flag,
the `NoReconnection` setting, and whether the parser and backoff have been
reset. -/
structure ManagerStateM where
  skipReconnect : Bool
  noReconnection : Bool
  parserWasReset : Bool
  backoffWasReset : Bool
  deriving DecidableEq, Repr

/-- The three steps `Manager.Close` performs, in order. -/
inductive ManagerCloseAction where
  | disconnectAllSockets
  | waitForDrainSeconds (seconds : Nat)
  | disconnectConn
  deriving DecidableEq, Repr

/-- Modelled from the spec: `clientConn.Disconnect` (the clientConn source is
not under src/) "Sets a flag that suppresses any subsequent reconnect"
(spec 4.11 Close) before closing the engine layer — it sets the manager's
`skipReconnect`. -/
def clientConnDisconnect (st : ManagerStateM) : ManagerStateM :=
  { st with skipReconnect := true }

/-- Embeds `Manager.Close` (src/client_manager.go lines 284-289): disconnect
every client socket, wait up to 5 seconds for the outbound engine packet
queue to drain, then disconnect the engine-layer connection. Returns the
state after `clientConnDisconnect` and the ordered action list. -/
def managerClose (st : ManagerStateM) : ManagerStateM × List ManagerCloseAction :=
  (clientConnDisconnect st,
    [.disconnectAllSockets, .waitForDrainSeconds 5, .disconnectConn])

/-- Embeds `Manager.onClose` (src/client_manager.go lines 264-282): reset the
parser and the backoff, fire the close handlers, then spawn a
`conn.Reconnect` goroutine iff `!noReconnection && !skipReconnect`. Returns
(state, whether a reconnect attempt was spawned). -/
def managerOnClose (st : ManagerStateM) : ManagerStateM × Bool :=
  let st' := { st with parserWasReset := true, backoffWasReset := true }
  (st', !st'.noReconnection && !st'.skipReconnect)

/-- C6: `Manager.Close` performs, in order, socket teardown, a bounded
5-second queue-drain wait, and the engine-layer disconnect; the disconnect
sets the skip-reconnect flag, and because `Manager.onClose` spawns a
reconnect only when reconnection is enabled and that flag is unset, no
reconnect attempt is started after `Manager.Close`. -/
theorem manager_close_suppresses_reconnect (st : ManagerStateM) :
    (managerClose st).2 =
      [.disconnectAllSockets, .waitForDrainSeconds 5, .disconnectConn] ∧
    (managerClose st).1.skipReconnect = true ∧
    (managerOnClose (managerClose st).1).2 = false ∧
    (∀ st' : ManagerStateM, (managerOnClose st').2 =
      (!st'.noReconnection && !st'.skipReconnect)) := by
  refine ⟨rfl, rfl, ?_, fun st' => rfl⟩
  simp [managerOnClose, managerClose, clientConnDisconnect]

/-! ## Manager construction defaults (src/client_manager.go, NewManager) -/

/-- The fields of `ManagerConfig` that drive the reconnect controller.
Pointer-typed Go fields (`*time.Duration`, `*float32`) are `Option`s carrying
the pointed-to value (`NewManager` only ever dereferences them, never writes
through them); durations are in nanoseconds (`time.Duration`); the
randomization factor is a rational (the float32 values involved are exact
dyadics). -/
structure ManagerConfigM where
  noReconnection : Bool
  reconnectionAttempts : Nat
  reconnectionDelay : Option Nat
  reconnectionDelayMax : Option Nat
  randomizationFactor : Option ℚ
  deriving DecidableEq, Repr

/-- The zero value of `ManagerConfig`, used when the caller passes nil
(`config = new(ManagerConfig)`). -/
def zeroManagerConfig : ManagerConfigM :=
  { noReconnection := false, reconnectionAttempts := 0, reconnectionDelay := none,
    reconnectionDelayMax := none, randomizationFactor := none }

/-- Constant `DefaultReconnectionDelay = 1 * time.Second` in nanoseconds. -/
def DefaultReconnectionDelay : Nat := 1000000000

/-- Constant `DefaultReconnectionDelayMax = 5 * time.Second` in nanoseconds. -/
def DefaultReconnectionDelayMax : Nat := 5000000000

/-- Constant `DefaultRandomizationFactor float32 = 0.5`. -/
def DefaultRandomizationFactor : ℚ := 1 / 2

/-- The reconnect-relevant settings stored on the constructed `Manager`;
all are plain values (the Go code dereferences every config pointer while
constructing, so the manager keeps no reference into the caller's config). -/
structure ManagerSettings where
  noReconnection : Bool
  reconnectionAttempts : Nat
  reconnectionDelay : Nat
  reconnectionDelayMax : Nat
  randomizationFactor : ℚ
  deriving DecidableEq, Repr

/-- Embeds `NewManager` (src/client_manager.go lines 99-162) restricted to
the reconnect settings: a nil config is replaced by the zero value, a non-nil
config is copied by value before being read (`c := *config`), and each nil
optional field falls back to its declared default. -/
def NewManager (config : Option ManagerConfigM) : ManagerSettings :=
  let config :=
    match config with
    | none => zeroManagerConfig
    | some c => c
  { noReconnection := config.noReconnection,
    reconnectionAttempts := config.reconnectionAttempts,
    reconnectionDelay :=
      match config.reconnectionDelay with
      | some d => d
      | none => DefaultReconnectionDelay,
    reconnectionDelayMax :=
      match config.reconnectionDelayMax with
      | some d => d
      | none => DefaultReconnectionDelayMax,
    randomizationFactor :=
      match config.randomizationFactor with
      | some f => f
      | none => DefaultRandomizationFactor }

/-- Models the scenario "construct a manager, then mutate the caller's config
struct": the Go code copies the struct and stores only dereferenced values,
so the manager built first is the one built from the unmutated config.
Returns (the manager, the caller's config afterwards). -/
def newManagerThenMutate (config : ManagerConfigM)
    (mutate : ManagerConfigM → ManagerConfigM) : ManagerSettings × ManagerConfigM :=
  (NewManager (some config), mutate config)

/-- C10: a manager built with a nil config, or with a config whose
corresponding fields are nil/zero, uses reconnection delay 1 second, maximum
reconnection delay 5 seconds, randomization factor 0.5, unlimited (0)
reconnection attempts and reconnection enabled; and mutating the caller's
config after the call leaves the constructed manager unchanged. -/
theorem new_manager_defaults :
    (NewManager none =
      { noReconnection := false, reconnectionAttempts := 0,
        reconnectionDelay := 1000000000, reconnectionDelayMax := 5000000000,
        randomizationFactor := 1 / 2 }) ∧
    (∀ cfg : ManagerConfigM,
      (cfg.reconnectionDelay = none →
        (NewManager (some cfg)).reconnectionDelay = 1000000000) ∧
      (cfg.reconnectionDelayMax = none →
        (NewManager (some cfg)).reconnectionDelayMax = 5000000000) ∧
      (cfg.randomizationFactor = none →
        (NewManager (some cfg)).randomizationFactor = 1 / 2) ∧
      (NewManager (some cfg)).reconnectionAttempts = cfg.reconnectionAttempts ∧
      (NewManager (some cfg)).noReconnection = cfg.noReconnection) ∧
    (∀ (cfg : ManagerConfigM) (mutate : ManagerConfigM → ManagerConfigM),
      (newManagerThenMutate cfg mutate).1 = NewManager (some cfg)) := by
  refine ⟨rfl, fun cfg => ⟨?_, ?_, ?_, rfl, rfl⟩, fun cfg mutate => rfl⟩
  · intro h
    simp [NewManager, h, DefaultReconnectionDelay]
  · intro h
    simp [NewManager, h, DefaultReconnectionDelayMax]
  · intro h
    simp [NewManager, h, DefaultRandomizationFactor]

/-- Witness for `new_manager_defaults` at the zero-valued (all fields
nil/zero) config. -/
theorem new_manager_defaults_witness :
    (NewManager (some zeroManagerConfig)).reconnectionDelay = 1000000000 ∧
    (NewManager (some zeroManagerConfig)).reconnectionDelayMax = 5000000000 ∧
    (NewManager (some zeroManagerConfig)).randomizationFactor = 1 / 2 ∧
    (newManagerThenMutate zeroManagerConfig
      (fun c => { c with reconnectionAttempts := 99 })).1 =
        NewManager (some zeroManagerConfig) :=
  ⟨(new_manager_defaults.2.1 zeroManagerConfig).1 rfl,
   (new_manager_defaults.2.1 zeroManagerConfig).2.1 rfl,
   (new_manager_defaults.2.1 zeroManagerConfig).2.2.1 rfl,
   new_manager_defaults.2.2 zeroManagerConfig (fun c => { c with reconnectionAttempts := 99 })⟩

end SocketIOGo
